import Mathlib

/-!
Verification of the agent-cluster-install manifest core
(`pkg/asset/agent/manifests/agentclusterinstall.go`).

The development shallow-embeds the Go code: IP addresses are byte lists
(`List Nat`), the Go standard library `net` parsing functions are translated
from their documented source, and the repository's functions (`isIPv6`,
`validateIPAddressAndNetworkType`, `setNetworkType`, `Generate`, `Load`) are
translated statement by statement.  Repository packages that are referenced
but whose sources are not included (`pkg/types/defaults`, `pkg/validate`,
`pkg/ipnet`, `getVIPs`) are modelled from the specification; each such
definition carries a doc comment starting with `Modelled from the spec:`.
-/

/-! ## Go standard library `net`: byte-level IP model -/

/-- An IP address in the Go `net.IP` representation: a byte slice, of length
4 or 16 for valid addresses; the empty list stands for Go's `nil` slice. -/
abbrev GoIP := List Nat

/-- The 12-byte prefix Go uses for the 16-byte form of an IPv4 address
(`v4InV6Prefix` in `net/ip.go`). -/
def v4InV6Pre : List Nat := [0, 0, 0, 0, 0, 0, 0, 0, 0, 0, 0xff, 0xff]

/-- `net.IP.To4`: returns the 4-byte form when the address is IPv4
(length 4, or length 16 with the v4-in-v6 lead bytes), `none` otherwise. -/
def to4 (ip : GoIP) : Option GoIP :=
  if ip.length = 4 then some ip
  else if ip.length = 16 ∧ ip.take 12 = v4InV6Pre then some (ip.drop 12)
  else none

/-- `net.IP.To16`: returns the 16-byte form for a length-4 or length-16
address and `none` (Go `nil`) for any other length. -/
def to16 (ip : GoIP) : Option GoIP :=
  if ip.length = 4 then some (v4InV6Pre ++ ip)
  else if ip.length = 16 then some ip
  else none

/-- `dtoi` from `net/parse.go`: reads a decimal number from the front of the
string; returns the value, the number of characters consumed, and whether
the read succeeded (it fails on no digits and on overflow past 0xFFFFFF). -/
def dtoiGo : List Char → Nat → Nat → Nat × Nat × Bool
  | [], n, i => if i = 0 then (0, 0, false) else (n, i, true)
  | c :: rest, n, i =>
    if '0' ≤ c ∧ c ≤ '9' then
      let n1 := n * 10 + (c.toNat - 48)
      if n1 ≥ 0xFFFFFF then (0xFFFFFF, i, false)
      else dtoiGo rest n1 (i + 1)
    else if i = 0 then (0, 0, false) else (n, i, true)

/-- Entry point for `dtoi` on a character list. -/
def dtoi (s : List Char) : Nat × Nat × Bool := dtoiGo s 0 0

/-- Hex digit value of a character, if it is one (`xtoi` loop body). -/
def hexVal (c : Char) : Option Nat :=
  if '0' ≤ c ∧ c ≤ '9' then some (c.toNat - 48)
  else if 'a' ≤ c ∧ c ≤ 'f' then some (c.toNat - 97 + 10)
  else if 'A' ≤ c ∧ c ≤ 'F' then some (c.toNat - 65 + 10)
  else none

/-- `xtoi` from `net/parse.go`: reads a hexadecimal number from the front of
the string; fails on no digits and on overflow past 0xFFFFFF. -/
def xtoiGo : List Char → Nat → Nat → Nat × Nat × Bool
  | [], n, i => if i = 0 then (0, i, false) else (n, i, true)
  | c :: rest, n, i =>
    match hexVal c with
    | some v =>
      let n1 := n * 16 + v
      if n1 ≥ 0xFFFFFF then (0, i, false)
      else xtoiGo rest n1 (i + 1)
    | none => if i = 0 then (0, i, false) else (n, i, true)

/-- Entry point for `xtoi` on a character list. -/
def xtoi (s : List Char) : Nat × Nat × Bool := xtoiGo s 0 0

/-- One dotted-decimal field of `parseIPv4`: a decimal number of value at
most 255 with no leading zero; returns the byte and the remaining input. -/
def v4Field (s : List Char) : Option (Nat × List Char) :=
  if s.isEmpty then none
  else
    let r := dtoi s
    if ¬ r.2.2 ∨ r.1 > 0xFF then none
    else if r.2.1 > 1 ∧ s.head? = some '0' then none
    else some (r.1, s.drop r.2.1)

/-- The last three fields of `parseIPv4`, each preceded by a dot; the whole
input must be consumed. -/
def v4Fields : List Char → Nat → List Nat → Option (List Nat)
  | s, 0, acc => if s.isEmpty then some acc.reverse else none
  | '.' :: s1, k + 1, acc =>
    match v4Field s1 with
    | none => none
    | some (b, rest) => v4Fields rest k (b :: acc)
  | _, _ + 1, _ => none

/-- `parseIPv4` from `net/ip.go`: parses a dotted-decimal IPv4 address and,
like Go's `IPv4` constructor, returns it in the 16-byte form; the empty list
stands for Go's `nil` result. -/
def parseIPv4 (s : List Char) : GoIP :=
  match v4Field s with
  | none => []
  | some (b, rest) =>
    match v4Fields rest 3 [b] with
    | none => []
    | some bs => v4InV6Pre ++ bs

/-- State threaded through the `parseIPv6` group loop: remaining input,
bytes filled so far (`i` in the Go code is `acc.length`), the ellipsis
position if one was seen, and whether parsing is still viable. -/
structure V6State where
  rest : List Char
  acc : List Nat
  ell : Option Nat
  ok : Bool

/-- One-or-more iterations of the `parseIPv6` group loop from `net/ip.go`,
driven by fuel (each iteration fills at least two of the sixteen bytes, so
sixteen units of fuel are never exhausted). -/
def v6Loop : Nat → List Char → List Nat → Option Nat → V6State
  | fuel, s, acc, ell =>
    if acc.length ≥ 16 then ⟨s, acc, ell, true⟩
    else match fuel with
    | 0 => ⟨s, acc, ell, false⟩
    | fuel + 1 =>
      let r := xtoi s
      if ¬ r.2.2 ∨ r.1 > 0xFFFF then ⟨s, acc, ell, false⟩
      else if (s.drop r.2.1).head? = some '.' then
        if (ell.isNone ∧ acc.length ≠ 12) ∨ acc.length + 4 > 16 then ⟨s, acc, ell, false⟩
        else
          match parseIPv4 s with
          | [] => ⟨s, acc, ell, false⟩
          | ip4 => ⟨[], acc ++ ip4.drop 12, ell, true⟩
      else
        let acc1 := acc ++ [r.1 / 256, r.1 % 256]
        let s1 := s.drop r.2.1
        if s1.isEmpty then ⟨s1, acc1, ell, true⟩
        else
          match s1 with
          | [':'] => ⟨s1, acc1, ell, false⟩
          | ':' :: ':' :: s2 =>
            if ell.isSome then ⟨s1, acc1, ell, false⟩
            else if s2.isEmpty then ⟨s2, acc1, some acc1.length, true⟩
            else v6Loop fuel s2 acc1 (some acc1.length)
          | ':' :: s2 => v6Loop fuel s2 acc1 ell
          | _ => ⟨s1, acc1, ell, false⟩

/-- `parseIPv6` from `net/ip.go`: parses a colon-separated IPv6 address with
optional `::` compression and optional trailing dotted-decimal IPv4 part;
the empty list stands for Go's `nil` result. -/
def parseIPv6 (s : List Char) : GoIP :=
  let st : V6State :=
    match s with
    | ':' :: ':' :: rest =>
      if rest.isEmpty then ⟨[], List.replicate 16 0, none, true⟩
      else v6Loop 16 rest [] (some 0)
    | _ => v6Loop 16 s [] none
  if ¬ st.ok then []
  else if ¬ st.rest.isEmpty then []
  else if st.acc.length < 16 then
    match st.ell with
    | none => []
    | some e => st.acc.take e ++ List.replicate (16 - st.acc.length) 0 ++ st.acc.drop e
  else if st.ell.isSome then []
  else st.acc

/-- `parseIPv6Zone`: strips a `%zone` suffix before IPv6 parsing. -/
def stripZone : List Char → List Char
  | [] => []
  | '%' :: _ => []
  | c :: rest => c :: stripZone rest

/-- `net.CIDRMask`: the canonical mask of `ones` one-bits out of `bits`,
as a byte list. -/
def cidrMask (ones bits : Nat) : List Nat :=
  maskBytes ones (bits / 8)
  where
    /-- Successive mask bytes, eight one-bits at a time. -/
    maskBytes : Nat → Nat → List Nat
    | _, 0 => []
    | o, k + 1 =>
      (if o ≥ 8 then 255 else 256 - 2 ^ (8 - o)) :: maskBytes (o - min o 8) k

/-- `net.IP.Mask`: byte-wise conjunction after Go's length adjustments
(a 16-byte v4-mapped address against a 4-byte mask is cut to 4 bytes, and a
16-byte all-ones-headed mask against a 4-byte address is cut likewise). -/
def maskIP (ip mask : List Nat) : GoIP :=
  let mask1 := if mask.length = 16 ∧ ip.length = 4 ∧ mask.take 12 = List.replicate 12 255
    then mask.drop 12 else mask
  let ip1 := if mask1.length = 4 ∧ ip.length = 16 ∧ ip.take 12 = v4InV6Pre
    then ip.drop 12 else ip
  if ip1.length ≠ mask1.length then []
  else List.zipWith (fun a b => a % 256 &&& b % 256) ip1 mask1

/-- Split a string at the first slash (`ParseCIDR` byte-index search). -/
def splitSlash : List Char → Option (List Char × List Char)
  | [] => none
  | '/' :: rest => some ([], rest)
  | c :: rest => (splitSlash rest).map (fun p => (c :: p.1, p.2))

/-- A parsed network: the masked network address and the mask, both byte
lists (`net.IPNet`). -/
structure GoIPNet where
  ip : List Nat
  mask : List Nat
deriving DecidableEq, Repr

/-- `net.ParseCIDR`: splits at the first slash, parses the address part as
IPv4 then IPv6, parses the prefix length, and returns the (unmasked) address
together with the masked network; `none` on any failure.  Like Go it leaves
IPv4 addresses in their 16-byte form and uses a 4-byte mask for them. -/
def parseCIDR (s : String) : Option (GoIP × GoIPNet) :=
  match splitSlash s.data with
  | none => none
  | some (addr, maskStr) =>
    let ip4 := parseIPv4 addr
    let ip := if ip4.isEmpty then parseIPv6 (stripZone addr) else ip4
    let iplen := if ip4.isEmpty then 16 else 4
    let r := dtoi maskStr
    if ip.isEmpty ∨ ¬ r.2.2 ∨ r.2.1 ≠ maskStr.length ∨ r.1 > 8 * iplen then none
    else
      let m := cidrMask r.1 (8 * iplen)
      some (ip, ⟨maskIP ip m, m⟩)

/-! ## Go standard library `net`: textual rendering -/

/-- Dotted-decimal rendering of a 4-byte address. -/
def dottedQuad (bs : List Nat) : String :=
  String.intercalate (".") (bs.map Nat.repr)

/-- Lowercase hexadecimal digit. -/
def hexDigitChar (n : Nat) : Char :=
  if n < 10 then Char.ofNat (48 + n) else Char.ofNat (97 + (n - 10))

/-- Go `appendHex` on a 16-bit group: lowercase, no leading zeros. -/
def toHexGo (n : Nat) : String :=
  if n = 0 then "0"
  else ⟨([n / 4096 % 16, n / 256 % 16, n / 16 % 16, n % 16].dropWhile (· = 0)).map hexDigitChar⟩

/-- Two-digit hexadecimal rendering of one byte (Go `IPMask.String`). -/
def byteHex (b : Nat) : String := ⟨[hexDigitChar (b / 16 % 16), hexDigitChar (b % 16)]⟩

/-- The 16-bit groups of a 16-byte address. -/
def v6GroupsOf : List Nat → List Nat
  | a :: b :: rest => (a * 256 + b) :: v6GroupsOf rest
  | _ => []

/-- Leftmost-longest run of zero groups, as in the `e0`/`e1` scan of Go
`IP.String`; only runs of at least two groups qualify. -/
def bestZeroRun (gs : List Nat) : Option (Nat × Nat) :=
  let starts := (List.range gs.length).filterMap (fun i =>
    if gs.getD i 1 = 0 ∧ (i = 0 ∨ gs.getD (i - 1) 1 ≠ 0) then
      some (i, ((gs.drop i).takeWhile (· = 0)).length)
    else none)
  let best := starts.foldl (fun b r =>
    match b with
    | none => some r
    | some b0 => if r.2 > b0.2 then some r else some b0) none
  match best with
  | some (i, l) => if l ≥ 2 then some (i, l) else none
  | none => none

/-- Go `IP.String` rendering of a 16-byte (non v4-mapped) address. -/
def v6String (ip : List Nat) : String :=
  let gs := v6GroupsOf ip
  match bestZeroRun gs with
  | none => String.intercalate (":") (gs.map toHexGo)
  | some (i, l) =>
    String.intercalate (":") ((gs.take i).map toHexGo) ++ "::" ++
      String.intercalate (":") ((gs.drop (i + l)).map toHexGo)

/-- `net.IP.String`: dotted quad for IPv4 (including the v4-mapped 16-byte
form), compressed colon-hex for IPv6, `<nil>` for the nil slice. -/
def ipToString (ip : GoIP) : String :=
  if ip.isEmpty then "<nil>"
  else match to4 ip with
  | some p4 => dottedQuad p4
  | none => if ip.length = 16 then v6String ip else "?"

/-- Number of leading one-bits of a byte if its bits are contiguous from the
top, `none` otherwise (inner loop of Go `simpleMaskLength`). -/
def leadingOnesByte (b : Nat) : Option Nat :=
  if b = 255 then some 8
  else if b = 254 then some 7
  else if b = 252 then some 6
  else if b = 248 then some 5
  else if b = 240 then some 4
  else if b = 224 then some 3
  else if b = 192 then some 2
  else if b = 128 then some 1
  else if b = 0 then some 0
  else none

/-- Go `simpleMaskLength`: prefix length of a canonical mask, `none` for a
non-canonical one. -/
def simpleMaskLength : List Nat → Option Nat
  | [] => some 0
  | b :: rest =>
    if b = 255 then (simpleMaskLength rest).map (8 + ·)
    else
      match leadingOnesByte b with
      | none => none
      | some k => if rest.all (· = 0) then some k else none

/-- `net.IPNet.String`: the Go `networkNumberAndMask` normalization followed
by `address/prefixLength` (or a hexadecimal mask when non-canonical). -/
def ipNetString (n : GoIPNet) : String :=
  let nm : Option (List Nat × List Nat) :=
    match to4 n.ip with
    | some p4 => some (p4, if n.mask.length = 16 then n.mask.drop 12 else n.mask)
    | none => if n.ip.length = 16 then some (n.ip, n.mask) else none
  match nm with
  | none => "<nil>"
  | some (ip1, m1) =>
    if m1.length ≠ 4 ∧ m1.length ≠ 16 then "<nil>"
    else if m1.length = 4 ∧ ip1.length ≠ 4 then "<nil>"
    else
      match simpleMaskLength m1 with
      | none => ipToString ip1 ++ "/" ++ String.join (m1.map byteHex)
      | some l => ipToString ip1 ++ "/" ++ Nat.repr l

/-! ## Repository data model (`hiveext.AgentClusterInstall`, field errors) -/

/-- The constant `operv1.NetworkTypeOpenShiftSDN` from the external
`openshift/api` module. -/
def networkTypeOpenShiftSDN : String := "OpenShiftSDN"

/-- A structured validation error: the field path together with the detail
message, as produced by `field.Required` (the error type is always
`Required` in this file, so it is not carried). -/
structure FieldError where
  path : List String
  detail : String
deriving DecidableEq, Repr

/-- `field.Required(path, detail)`. -/
def required (path : List String) (detail : String) : FieldError := ⟨path, detail⟩

/-- `field.NewPath("spec", "networking", "networkType")`. -/
def fieldPathNetworkType : List String := ["spec", "networking", "networkType"]

/-- `field.NewPath("spec", "networking", "clusterNetwork")`. -/
def clusterNetworkPath : List String := ["spec", "networking", "clusterNetwork"]

/-- `field.NewPath("spec", "networking", "serviceNetwork")`. -/
def serviceNetworkPath : List String := ["spec", "networking", "serviceNetwork"]

/-- `hiveext.ClusterNetworkEntry`: a CIDR string and a host prefix length. -/
structure ClusterNetworkEntry where
  cidr : String
  hostPrefixLen : Int
deriving DecidableEq, Repr

/-- The fields of `hiveext.AgentClusterInstall` that the embedded code reads
or writes (identity and object references are opaque strings elsewhere and
are irrelevant to every claim, so they are omitted). -/
structure ACISpec where
  networkType : String
  clusterNetwork : List ClusterNetworkEntry
  serviceNetwork : List String
  sshPublicKey : String
  controlPlaneAgents : Int
  workerAgents : Int
  apiVIP : String
  ingressVIP : String
deriving DecidableEq, Repr

/-! ## Repository functions from `agentclusterinstall.go` -/

/-- `isIPv6` (line 211): true when `To16` of the address is not nil — which
holds for every address of length 4 or 16, IPv4 included. -/
def isIPv6 (ipAddress : GoIP) : Bool := (to16 ipAddress).isSome

/-- The first return value of `net.ParseCIDR`, with the empty list for Go's
nil result on a parse error. -/
def parsedIP (s : String) : GoIP :=
  match parseCIDR s with
  | none => []
  | some p => p.1

/-- The clusterNetwork loop of `validateIPAddressAndNetworkType`: each entry
whose CIDR fails to parse appends one `Required` error at the clusterNetwork
path, in entry order (the loop never aborts early). -/
def clusterNetworkParseErrors (entries : List ClusterNetworkEntry) : List FieldError :=
  entries.filterMap (fun cn =>
    if (parseCIDR cn.cidr).isNone then
      some (required clusterNetworkPath ("error parsing the clusterNetwork CIDR"))
    else none)

/-- The serviceNetwork loop of `validateIPAddressAndNetworkType`; the Go
code reuses the clusterNetwork detail message verbatim. -/
def serviceNetworkParseErrors (cidrs : List String) : List FieldError :=
  cidrs.filterMap (fun c =>
    if (parseCIDR c).isNone then
      some (required serviceNetworkPath ("error parsing the clusterNetwork CIDR"))
    else none)

/-- The `hasIPv6` flag computed by the clusterNetwork loop. -/
def clusterNetworkHasIPv6 (entries : List ClusterNetworkEntry) : Bool :=
  entries.any (fun cn => isIPv6 (parsedIP cn.cidr))

/-- The `hasIPv6` flag computed by the serviceNetwork loop. -/
def serviceNetworkHasIPv6 (cidrs : List String) : Bool :=
  cidrs.any (fun c => isIPv6 (parsedIP c))

/-- `validateIPAddressAndNetworkType` (lines 216-258): when the network type
is `OpenShiftSDN`, the accumulated error list is the clusterNetwork parse
errors, then the consolidated clusterNetwork incompatibility error if the
flag is set, then the serviceNetwork parse errors, then the consolidated
serviceNetwork incompatibility error; otherwise the list is empty. -/
def validateIPAddressAndNetworkType (a : ACISpec) : List FieldError :=
  if a.networkType = networkTypeOpenShiftSDN then
    clusterNetworkParseErrors a.clusterNetwork ++
      (if clusterNetworkHasIPv6 a.clusterNetwork then
        [required fieldPathNetworkType
          ("clusterNetwork CIDR is IPv6 and is not compatible with networkType OpenShiftSDN")]
      else []) ++
      serviceNetworkParseErrors a.serviceNetwork ++
      (if serviceNetworkHasIPv6 a.serviceNetwork then
        [required fieldPathNetworkType
          ("serviceNetwork CIDR is IPv6 and is not compatible with networkType OpenShiftSDN")]
      else [])
  else []

/-! ## Install configuration model and network-type resolution -/

/-- The networking block of `types.InstallConfig`: the optional network-type
string and the cluster-network and service-network lists (each
cluster-network entry is a CIDR string with its host prefix length). -/
structure Networking where
  networkType : String
  clusterNetwork : List (String × Int)
  serviceNetwork : List String
deriving DecidableEq, Repr

/-- Modelled from the spec: the fields of `types.InstallConfig` this core
reads (pkg/types is not among the sources) — compute and control-plane
replica counts, the networking block, the SSH key, and the platform section
carrying the optional virtual IPs.  `networking` is a plain field because
`Generate` dereferences it unconditionally. -/
structure InstallConfig where
  networking : Networking
  computeReplicas : List Int
  controlPlaneReplicas : Int
  sshKey : String
  apiVIP : String
  ingressVIP : String
deriving DecidableEq, Repr

/-- Modelled from the spec: `defaults.SetInstallConfigDefaults`
(pkg/types/defaults is not among the sources) fills an unset network type
with the system default plugin, which the source's own comment names
`OVNKubernetes`. -/
def defaultNetworkType : String := "OVNKubernetes"

/-- `setNetworkType` (lines 193-209), reduced to the network-type value it
stores: keep a non-empty descriptor value; else copy a non-empty install
configuration value (the configuration pointer may be nil, hence the
`Option`); else adopt the system default. -/
def setNetworkType (aciNetworkType : String) (networking : Option Networking) : String :=
  if aciNetworkType ≠ "" then aciNetworkType
  else
    match networking with
    | some nw => if nw.networkType ≠ "" then nw.networkType else defaultNetworkType
    | none => defaultNetworkType

/-- `setNetworkType` acting on the whole descriptor (the Go function
mutates only `Spec.Networking.NetworkType`). -/
def setNetworkTypeACI (aci : ACISpec) (networking : Option Networking) : ACISpec :=
  { aci with networkType := setNetworkType aci.networkType networking }

/-! ## Descriptor builder (`Generate`) -/

/-- The cutset of `strings.Trim(installConfig.Config.SSHKey, "|\n\t")`. -/
def trimCutset : List Char := ['|', '\n', '\t']

/-- `strings.Trim` on a character list: remove every leading and every
trailing character contained in the cutset. -/
def goTrimList (cut : List Char) (l : List Char) : List Char :=
  ((l.dropWhile (cut.contains ·)).reverse.dropWhile (cut.contains ·)).reverse

/-- `strings.Trim` on a string. -/
def goTrim (s : String) (cut : List Char) : String := ⟨goTrimList cut s.data⟩

/-- Modelled from the spec: `validate.SubnetCIDR` (pkg/validate is not among
the sources) accepts a CIDR exactly when its host bits are zero, that is,
when masking its address is the identity. -/
def subnetCIDRok (n : GoIPNet) : Bool := maskIP n.ip n.mask == n.ip

/-- Modelled from the spec: `ipnet.ParseCIDR` (pkg/ipnet is not among the
sources) parses a CIDR string, failing exactly when `net.ParseCIDR` does,
and yields the network whose rendering is the normalized representation. -/
def ipnetParseCIDR (s : String) : Option GoIPNet :=
  (parseCIDR s).map (fun p => p.2)

/-- Modelled from the spec: `getVIPs` (defined in a manifests-package file
not among the sources) asks the platform section for its
(apiVIP, ingressVIP) pair. -/
def getVIPs (ic : InstallConfig) : String × String := (ic.apiVIP, ic.ingressVIP)

/-- One iteration of the clusterNetwork build loop (lines 64-79): re-parse
the CIDR, re-validate it as a subnet, and emit the entry with the normalized
CIDR string; the first failure aborts the whole build. -/
def buildClusterNetworkEntry (cn : String × Int) : Except String ClusterNetworkEntry :=
  match parseCIDR cn.1 with
  | none => Except.error ("failed to parse ClusterNetwork CIDR")
  | some p =>
    if subnetCIDRok p.2 then Except.ok ⟨ipNetString p.2, cn.2⟩
    else Except.error ("failed to validate ClusterNetwork CIDR")

/-- One iteration of the serviceNetwork build loop (lines 82-88). -/
def buildServiceNetworkEntry (sn : String) : Except String String :=
  match ipnetParseCIDR sn with
  | none => Except.error ("failed to parse ServiceNetwork CIDR")
  | some n => Except.ok (ipNetString n)

/-- The two fail-fast network build loops of `Generate`. -/
def buildNets (ic : InstallConfig) : Except String (List ClusterNetworkEntry × List String) :=
  match ic.networking.clusterNetwork.mapM buildClusterNetworkEntry with
  | Except.error e => Except.error e
  | Except.ok cn =>
    match ic.networking.serviceNetwork.mapM buildServiceNetworkEntry with
    | Except.error e => Except.error e
    | Except.ok sn => Except.ok (cn, sn)

/-- Descriptor assembly in `Generate` (lines 90-124): the literal with empty
network type and VIPs, then `setNetworkType`, then the VIP assignment
guarded by a control-plane replica count above one and both VIPs
non-empty. -/
def assemble (ic : InstallConfig) (cn : List ClusterNetworkEntry) (sn : List String) : ACISpec :=
  let aci0 : ACISpec :=
    { networkType := ""
      clusterNetwork := cn
      serviceNetwork := sn
      sshPublicKey := goTrim ic.sshKey trimCutset
      controlPlaneAgents := ic.controlPlaneReplicas
      workerAgents := ic.computeReplicas.foldl (· + ·) 0
      apiVIP := ""
      ingressVIP := "" }
  let aci1 := setNetworkTypeACI aci0 (some ic.networking)
  if ic.controlPlaneReplicas > 1 ∧ (getVIPs ic).1 ≠ "" ∧ (getVIPs ic).2 ≠ "" then
    { aci1 with apiVIP := (getVIPs ic).1, ingressVIP := (getVIPs ic).2 }
  else aci1

/-- `Generate` followed by `finish` (lines 53-139, 178-189): build the
networks fail-fast, assemble the descriptor, and reject it when the
validator reports any error (serialization, which cannot fail on this data,
is omitted). -/
def generate (ic : InstallConfig) : Except String ACISpec :=
  match buildNets ic with
  | Except.error e => Except.error e
  | Except.ok ns =>
    let aci := assemble ic ns.1 ns.2
    if validateIPAddressAndNetworkType aci = [] then Except.ok aci
    else Except.error ("invalid NetworkType configured")

/-! ## Persistence round-trip (`Load`) -/

/-- Classification of a fetch failure: the "file not found" signal that
`os.IsNotExist` recognizes, or any other failure. -/
inductive FetchError where
  | notExist
  | other (msg : String)
deriving DecidableEq, Repr

/-- The observable outcome of `Load`: the returned boolean, the returned
error, and the descriptor adopted into the asset (if any). -/
structure LoadResult where
  found : Bool
  err : Option String
  config : Option ACISpec
deriving DecidableEq, Repr

/-- `Load` (lines 150-176), over the outcome of the file fetch and the
outcome of the strict unmarshal of the fetched bytes: a not-found fetch is
`(false, no error)`; any other fetch failure and any unmarshal failure wrap
the cause; otherwise the network type is resolved against a blank install
configuration (whose networking pointer is nil) and `finish` runs the
validator, whose errors abort the load after the descriptor was already
adopted. -/
def load (fetchResult : Except FetchError Unit)
    (parseResult : Except String ACISpec) : LoadResult :=
  match fetchResult with
  | Except.error FetchError.notExist => ⟨false, none, none⟩
  | Except.error (FetchError.other m) =>
    ⟨false, some ("failed to load agent-cluster-install.yaml file: " ++ m), none⟩
  | Except.ok _ =>
    match parseResult with
    | Except.error m =>
      ⟨false, some ("failed to unmarshal agent-cluster-install.yaml: " ++ m), none⟩
    | Except.ok parsed =>
      let aci := setNetworkTypeACI parsed none
      if validateIPAddressAndNetworkType aci = [] then ⟨true, none, some aci⟩
      else ⟨false, some ("invalid NetworkType configured"), some aci⟩

/-! ## Observers and concrete instances used in claim statements -/

/-- The errors of a list located at a given field path. -/
def errorsAt (p : List String) (errs : List FieldError) : List FieldError :=
  errs.filter (fun e => e.path == p)

/-- An OpenShiftSDN descriptor whose every network CIDR parses as IPv4. -/
def aciAllV4SDN : ACISpec :=
  { networkType := networkTypeOpenShiftSDN
    clusterNetwork := [{ cidr := "10.128.0.0/14", hostPrefixLen := 23 }]
    serviceNetwork := ["172.30.0.0/16"]
    sshPublicKey := ""
    controlPlaneAgents := 1
    workerAgents := 0
    apiVIP := ""
    ingressVIP := "" }

/-- The OpenShiftSDN descriptor with the single IPv6 cluster network
`fd01::/48` and no service networks. -/
def aciV6SDN : ACISpec :=
  { networkType := networkTypeOpenShiftSDN
    clusterNetwork := [{ cidr := "fd01::/48", hostPrefixLen := 64 }]
    serviceNetwork := []
    sshPublicKey := ""
    controlPlaneAgents := 1
    workerAgents := 0
    apiVIP := ""
    ingressVIP := "" }

/-- A descriptor with a different network type and deliberately mixed
(IPv6 and unparsable) network CIDRs. -/
def aciOVN : ACISpec :=
  { networkType := "OVNKubernetes"
    clusterNetwork := [{ cidr := "fd01::/48", hostPrefixLen := 64 },
                       { cidr := "bogus", hostPrefixLen := 0 }]
    serviceNetwork := ["fd02::/112", "junk"]
    sshPublicKey := ""
    controlPlaneAgents := 1
    workerAgents := 0
    apiVIP := ""
    ingressVIP := "" }

/-- An OpenShiftSDN descriptor with unparsable entries among its
networks. -/
def aciBadSDN : ACISpec :=
  { networkType := networkTypeOpenShiftSDN
    clusterNetwork := [{ cidr := "bogus", hostPrefixLen := 0 },
                       { cidr := "10.0.0.0/16", hostPrefixLen := 23 },
                       { cidr := "junk", hostPrefixLen := 0 }]
    serviceNetwork := ["bad"]
    sshPublicKey := ""
    controlPlaneAgents := 1
    workerAgents := 0
    apiVIP := ""
    ingressVIP := "" }

/-- The install configuration of the concrete build scenario: one
control-plane replica, two compute pools of three replicas each, cluster
network `10.128.0.0/14` with host prefix 23, service network
`172.30.0.0/16`, network type unset, platform VIPs set. -/
def icScenario : InstallConfig :=
  { networking :=
      { networkType := ""
        clusterNetwork := [("10.128.0.0/14", 23)]
        serviceNetwork := ["172.30.0.0/16"] }
    computeReplicas := [3, 3]
    controlPlaneReplicas := 1
    sshKey := ""
    apiVIP := "192.168.1.10"
    ingressVIP := "192.168.1.11" }

/-- The descriptor the concrete scenario builds. -/
def aciScenario : ACISpec :=
  { networkType := defaultNetworkType
    clusterNetwork := [{ cidr := "10.128.0.0/14", hostPrefixLen := 23 }]
    serviceNetwork := ["172.30.0.0/16"]
    sshPublicKey := ""
    controlPlaneAgents := 1
    workerAgents := 6
    apiVIP := ""
    ingressVIP := "" }

/-- An install configuration whose SSH key carries cutset characters on
both ends. -/
def icSSH : InstallConfig :=
  { networking := { networkType := "", clusterNetwork := [], serviceNetwork := [] }
    computeReplicas := []
    controlPlaneReplicas := 1
    sshKey := "|\n\tssh-rsa AAA |inner| \t\n|"
    apiVIP := ""
    ingressVIP := "" }

/-- The descriptor built from `icSSH`. -/
def aciSSH : ACISpec :=
  { networkType := defaultNetworkType
    clusterNetwork := []
    serviceNetwork := []
    sshPublicKey := "ssh-rsa AAA |inner| "
    controlPlaneAgents := 1
    workerAgents := 0
    apiVIP := ""
    ingressVIP := "" }

/-! ## Helper lemmas -/

lemma setNetworkType_of_ne (nt : String) (nw : Option Networking) (h : nt ≠ "") :
    setNetworkType nt nw = nt := by
  unfold setNetworkType
  rw [if_pos h]

lemma setNetworkType_ne_empty (nt : String) (nw : Option Networking) :
    setNetworkType nt nw ≠ "" := by
  unfold setNetworkType
  by_cases h : nt ≠ ""
  · rw [if_pos h]; exact h
  · rw [if_neg h]
    cases nw with
    | none => decide
    | some nw0 =>
      show (if nw0.networkType ≠ "" then nw0.networkType else defaultNetworkType) ≠ ""
      by_cases h2 : nw0.networkType ≠ ""
      · rw [if_pos h2]; exact h2
      · rw [if_neg h2]; decide

lemma clusterNetworkParseErrors_path (e : FieldError) (l : List ClusterNetworkEntry)
    (h : e ∈ clusterNetworkParseErrors l) : e.path = clusterNetworkPath := by
  unfold clusterNetworkParseErrors at h
  obtain ⟨cn, _, h2⟩ := List.mem_filterMap.mp h
  split at h2
  · cases h2; rfl
  · cases h2

lemma serviceNetworkParseErrors_path (e : FieldError) (l : List String)
    (h : e ∈ serviceNetworkParseErrors l) : e.path = serviceNetworkPath := by
  unfold serviceNetworkParseErrors at h
  obtain ⟨c, _, h2⟩ := List.mem_filterMap.mp h
  split at h2
  · cases h2; rfl
  · cases h2

lemma clusterNetworkParseErrors_length (l : List ClusterNetworkEntry) :
    (clusterNetworkParseErrors l).length
      = (l.filter (fun cn => (parseCIDR cn.cidr).isNone)).length := by
  induction l with
  | nil => rfl
  | cons hd tl ih =>
    unfold clusterNetworkParseErrors at ih ⊢
    simp only [Option.isNone_iff_eq_none] at ih
    cases h : parseCIDR hd.cidr <;> simp [List.filterMap_cons, List.filter_cons, h, ih]

lemma serviceNetworkParseErrors_length (l : List String) :
    (serviceNetworkParseErrors l).length
      = (l.filter (fun c => (parseCIDR c).isNone)).length := by
  induction l with
  | nil => rfl
  | cons hd tl ih =>
    unfold serviceNetworkParseErrors at ih ⊢
    simp only [Option.isNone_iff_eq_none] at ih
    cases h : parseCIDR hd <;> simp [List.filterMap_cons, List.filter_cons, h, ih]

lemma errorsAt_append (p : List String) (l1 l2 : List FieldError) :
    errorsAt p (l1 ++ l2) = errorsAt p l1 ++ errorsAt p l2 :=
  List.filter_append l1 l2

lemma errorsAt_of_all (p : List String) (l : List FieldError)
    (h : ∀ e ∈ l, e.path = p) : errorsAt p l = l := by
  unfold errorsAt
  refine List.filter_eq_self.mpr (fun e he => ?_)
  exact beq_iff_eq.mpr (h e he)

lemma errorsAt_of_none (p : List String) (l : List FieldError)
    (h : ∀ e ∈ l, e.path ≠ p) : errorsAt p l = [] := by
  unfold errorsAt
  refine List.filter_eq_nil_iff.mpr (fun e he => ?_)
  simp only [beq_iff_eq]
  exact h e he

lemma errorsAt_flag (p q : List String) (d : String) (b : Bool) (h : q ≠ p) :
    errorsAt p (if b = true then [required q d] else []) = [] := by
  cases b
  · rfl
  · simp only [if_pos rfl]
    exact errorsAt_of_none p _ (fun e he => by
      cases he with
      | head => exact h
      | tail _ h2 => cases h2)

lemma generate_ok_assemble (ic : InstallConfig) (aci : ACISpec)
    (h : generate ic = Except.ok aci) : ∃ cn sn, aci = assemble ic cn sn := by
  unfold generate at h
  cases hb : buildNets ic with
  | error e => rw [hb] at h; cases h
  | ok ns =>
    rw [hb] at h
    dsimp only [] at h
    by_cases hv : validateIPAddressAndNetworkType (assemble ic ns.1 ns.2) = []
    · rw [if_pos hv] at h
      cases h
      exact ⟨ns.1, ns.2, rfl⟩
    · rw [if_neg hv] at h; cases h

lemma assemble_sshPublicKey (ic : InstallConfig) (cn : List ClusterNetworkEntry)
    (sn : List String) :
    (assemble ic cn sn).sshPublicKey = goTrim ic.sshKey trimCutset := by
  unfold assemble setNetworkTypeACI
  split <;> rfl

lemma assemble_apiVIP (ic : InstallConfig) (cn : List ClusterNetworkEntry)
    (sn : List String) :
    (assemble ic cn sn).apiVIP
      = if ic.controlPlaneReplicas > 1 ∧ (getVIPs ic).1 ≠ "" ∧ (getVIPs ic).2 ≠ ""
        then (getVIPs ic).1 else "" := by
  unfold assemble setNetworkTypeACI
  split <;> simp_all

lemma assemble_ingressVIP (ic : InstallConfig) (cn : List ClusterNetworkEntry)
    (sn : List String) :
    (assemble ic cn sn).ingressVIP
      = if ic.controlPlaneReplicas > 1 ∧ (getVIPs ic).1 ≠ "" ∧ (getVIPs ic).2 ≠ ""
        then (getVIPs ic).2 else "" := by
  unfold assemble setNetworkTypeACI
  split <;> simp_all

lemma head_dropWhile_false (P : Char → Bool) (l : List Char) :
    ∀ c, (l.dropWhile P).head? = some c → P c = false := by
  induction l with
  | nil => intro c h; cases h
  | cons a tl ih =>
    intro c h
    rw [List.dropWhile_cons] at h
    by_cases hp : P a = true
    · rw [if_pos hp] at h; exact ih c h
    · rw [if_neg hp] at h
      cases h
      exact Bool.not_eq_true _ ▸ hp

lemma dropWhile_eq_self_of_head (P : Char → Bool) (l : List Char)
    (h : ∀ c, l.head? = some c → P c = false) : l.dropWhile P = l := by
  cases l with
  | nil => rfl
  | cons a tl =>
    rw [List.dropWhile_cons, h a rfl]
    simp

lemma dropWhile_decomp (P : Char → Bool) (l : List Char) :
    ∃ p, l = p ++ l.dropWhile P ∧ ∀ c ∈ p, P c = true := by
  refine ⟨l.takeWhile P, ?_, ?_⟩
  · exact (List.takeWhile_append_dropWhile P l).symm
  · intro c hc; exact List.mem_takeWhile_imp hc

lemma head_append_left (l1 l2 : List Char) (h : l1 ≠ []) :
    (l1 ++ l2).head? = l1.head? := by
  cases l1 with
  | nil => exact absurd rfl h
  | cons a t => rfl

lemma goTrimList_decomp (cut : List Char) (l : List Char) :
    ∃ p q, l = p ++ goTrimList cut l ++ q ∧
      (∀ c ∈ p, cut.contains c = true) ∧ (∀ c ∈ q, cut.contains c = true) := by
  obtain ⟨p, hp1, hp2⟩ := dropWhile_decomp (cut.contains ·) l
  obtain ⟨p2, hq1, hq2⟩ :=
    dropWhile_decomp (cut.contains ·) (l.dropWhile (cut.contains ·)).reverse
  refine ⟨p, p2.reverse, ?_, hp2, ?_⟩
  · have h3 : l.dropWhile (cut.contains ·) = goTrimList cut l ++ p2.reverse := by
      unfold goTrimList
      calc l.dropWhile (cut.contains ·)
          = (l.dropWhile (cut.contains ·)).reverse.reverse := (List.reverse_reverse _).symm
        _ = (p2 ++ (l.dropWhile (cut.contains ·)).reverse.dropWhile (cut.contains ·)).reverse := by
            rw [← hq1]
        _ = ((l.dropWhile (cut.contains ·)).reverse.dropWhile (cut.contains ·)).reverse
              ++ p2.reverse := List.reverse_append _ _
    rw [List.append_assoc, ← h3]
    exact hp1
  · intro c hc; exact hq2 c (List.mem_reverse.mp hc)

lemma goTrimList_head_false (cut : List Char) (l : List Char) :
    ∀ c, (goTrimList cut l).head? = some c → cut.contains c = false := by
  intro c h
  unfold goTrimList at h
  rw [List.head?_reverse] at h
  obtain ⟨p2, hq1, _⟩ :=
    dropWhile_decomp (cut.contains ·) (l.dropWhile (cut.contains ·)).reverse
  have hne : (l.dropWhile (cut.contains ·)).reverse.dropWhile (cut.contains ·) ≠ [] := by
    intro he
    rw [he] at h
    cases h
  have h4 : ((l.dropWhile (cut.contains ·)).reverse).getLast? = some c := by
    rw [hq1, ← List.head?_reverse, List.reverse_append, head_append_left, List.head?_reverse]
    · exact h
    · intro he
      exact hne (by rw [← List.reverse_reverse
        ((l.dropWhile (cut.contains ·)).reverse.dropWhile (cut.contains ·)), he]; rfl)
  rw [List.getLast?_reverse] at h4
  exact head_dropWhile_false (cut.contains ·) l c h4

lemma goTrimList_getLast_false (cut : List Char) (l : List Char) :
    ∀ c, (goTrimList cut l).getLast? = some c → cut.contains c = false := by
  intro c h
  unfold goTrimList at h
  rw [List.getLast?_reverse] at h
  exact head_dropWhile_false (cut.contains ·) _ c h

lemma goTrimList_idem (cut : List Char) (l : List Char) :
    goTrimList cut (goTrimList cut l) = goTrimList cut l := by
  have h1 : (goTrimList cut l).dropWhile (cut.contains ·) = goTrimList cut l :=
    dropWhile_eq_self_of_head _ _ (goTrimList_head_false cut l)
  have h2 : ((l.dropWhile (cut.contains ·)).reverse.dropWhile
      (cut.contains ·)).dropWhile (cut.contains ·)
      = (l.dropWhile (cut.contains ·)).reverse.dropWhile (cut.contains ·) :=
    dropWhile_eq_self_of_head _ _ (head_dropWhile_false (cut.contains ·) _)
  have h3 : goTrimList cut (goTrimList cut l)
      = (((goTrimList cut l).dropWhile (cut.contains ·)).reverse.dropWhile
          (cut.contains ·)).reverse := rfl
  have h4 : (goTrimList cut l).reverse
      = (l.dropWhile (cut.contains ·)).reverse.dropWhile (cut.contains ·) := by
    unfold goTrimList
    rw [List.reverse_reverse]
  rw [h3, h1, h4, h2]
  rfl

/-! ## Claims -/

/-- C1: the claim states that `validate` adds the consolidated
incompatibility error at the network-type path iff some cluster- or
service-network CIDR classifies as IPv6, and in particular returns an empty
list when every CIDR parses as valid IPv4.  The code contradicts this:
`isIPv6` tests `To16() != nil`, which also holds for every IPv4 address, so
an all-IPv4 OpenShiftSDN descriptor is rejected with errors claiming its
CIDRs are IPv6.  This theorem evaluates the code at such a failing input:
both CIDRs are IPv4 (their `To4` is non-nil), yet `validate` returns both
incompatibility errors instead of the empty list. -/
theorem C1_ipv4_flagged_as_ipv6 :
    (to4 (parsedIP "10.128.0.0/14")).isSome = true ∧
    (to4 (parsedIP "172.30.0.0/16")).isSome = true ∧
    validateIPAddressAndNetworkType aciAllV4SDN =
      [required fieldPathNetworkType
        ("clusterNetwork CIDR is IPv6 and is not compatible with networkType OpenShiftSDN"),
       required fieldPathNetworkType
        ("serviceNetwork CIDR is IPv6 and is not compatible with networkType OpenShiftSDN")] ∧
    validateIPAddressAndNetworkType aciAllV4SDN ≠ [] :=
  ⟨rfl, rfl, rfl, by decide⟩

/-- C2: for the OpenShiftSDN descriptor with the single cluster network
`fd01::/48` and no service networks, `validate` returns exactly one error,
it is located at the network-type field path, and no error is located at
the cluster-network field path. -/
theorem C2_single_error_at_networkType :
    (validateIPAddressAndNetworkType aciV6SDN).length = 1 ∧
    errorsAt fieldPathNetworkType (validateIPAddressAndNetworkType aciV6SDN)
      = validateIPAddressAndNetworkType aciV6SDN ∧
    errorsAt clusterNetworkPath (validateIPAddressAndNetworkType aciV6SDN) = [] :=
  ⟨rfl, rfl, rfl⟩

/-- C3: for every descriptor whose network type differs from the
OpenShiftSDN identifier, `validate` returns the empty error list, whatever
the families or parseability of its network CIDRs. -/
theorem C3_other_network_types_validate_empty (a : ACISpec)
    (h : a.networkType ≠ networkTypeOpenShiftSDN) :
    validateIPAddressAndNetworkType a = [] := by
  unfold validateIPAddressAndNetworkType
  rw [if_neg h]

/-- C3 witness: a non-OpenShiftSDN descriptor carrying IPv6 and unparsable
CIDRs still validates to the empty list. -/
theorem C3_witness :
    aciOVN.networkType ≠ networkTypeOpenShiftSDN ∧
    validateIPAddressAndNetworkType aciOVN = [] :=
  ⟨by decide, C3_other_network_types_validate_empty aciOVN (by decide)⟩

/-- C4: for every OpenShiftSDN descriptor the validator never aborts on a
parse failure: the number of required-field errors at the cluster-network
path equals the number of unparsable cluster-network CIDR entries, and
likewise for the service-network path and its entries. -/
theorem C4_parse_error_counts (a : ACISpec)
    (h : a.networkType = networkTypeOpenShiftSDN) :
    (errorsAt clusterNetworkPath (validateIPAddressAndNetworkType a)).length
        = (a.clusterNetwork.filter (fun cn => (parseCIDR cn.cidr).isNone)).length ∧
    (errorsAt serviceNetworkPath (validateIPAddressAndNetworkType a)).length
        = (a.serviceNetwork.filter (fun c => (parseCIDR c).isNone)).length := by
  unfold validateIPAddressAndNetworkType
  rw [if_pos h]
  constructor
  · rw [errorsAt_append, errorsAt_append, errorsAt_append]
    rw [errorsAt_of_all _ _ (fun e he => clusterNetworkParseErrors_path e _ he)]
    rw [errorsAt_flag _ _ _ _ (by decide)]
    rw [errorsAt_of_none _ _ (fun e he => by
      rw [serviceNetworkParseErrors_path e _ he]; decide)]
    rw [errorsAt_flag _ _ _ _ (by decide)]
    rw [List.append_nil, List.append_nil, List.append_nil]
    exact clusterNetworkParseErrors_length _
  · rw [errorsAt_append, errorsAt_append, errorsAt_append]
    rw [errorsAt_of_none _ _ (fun e he => by
      rw [clusterNetworkParseErrors_path e _ he]; decide)]
    rw [errorsAt_flag _ _ _ _ (by decide)]
    rw [errorsAt_of_all _ _ (fun e he => serviceNetworkParseErrors_path e _ he)]
    rw [errorsAt_flag _ _ _ _ (by decide)]
    rw [List.append_nil, List.nil_append, List.nil_append]
    exact serviceNetworkParseErrors_length _

/-- C4 witness: an OpenShiftSDN descriptor with two unparsable cluster
networks and one unparsable service network. -/
theorem C4_witness :
    (errorsAt clusterNetworkPath (validateIPAddressAndNetworkType aciBadSDN)).length
        = (aciBadSDN.clusterNetwork.filter (fun cn => (parseCIDR cn.cidr).isNone)).length ∧
    (errorsAt serviceNetworkPath (validateIPAddressAndNetworkType aciBadSDN)).length
        = (aciBadSDN.serviceNetwork.filter (fun c => (parseCIDR c).isNone)).length :=
  C4_parse_error_counts aciBadSDN rfl

/-- C5: for every install configuration the builder accepts, the built
descriptor's VIP fields are non-empty only when the control-plane replica
count exceeds one and both platform VIPs are non-empty; with exactly one
control-plane replica both VIP fields are empty no matter what the platform
accessor returns. -/
theorem C5_vip_invariant (ic : InstallConfig) (aci : ACISpec)
    (h : generate ic = Except.ok aci) :
    ((aci.apiVIP ≠ "" ∨ aci.ingressVIP ≠ "") →
      ic.controlPlaneReplicas > 1 ∧ (getVIPs ic).1 ≠ "" ∧ (getVIPs ic).2 ≠ "") ∧
    (ic.controlPlaneReplicas = 1 → aci.apiVIP = "" ∧ aci.ingressVIP = "") := by
  obtain ⟨cn, sn, rfl⟩ := generate_ok_assemble ic aci h
  constructor
  · intro hne
    by_cases hc : ic.controlPlaneReplicas > 1 ∧ (getVIPs ic).1 ≠ "" ∧ (getVIPs ic).2 ≠ ""
    · exact hc
    · exfalso
      cases hne with
      | inl h1 => rw [assemble_apiVIP, if_neg hc] at h1; exact h1 rfl
      | inr h1 => rw [assemble_ingressVIP, if_neg hc] at h1; exact h1 rfl
  · intro h1
    have hc : ¬ (ic.controlPlaneReplicas > 1 ∧ (getVIPs ic).1 ≠ "" ∧ (getVIPs ic).2 ≠ "") := by
      intro hcc
      rw [h1] at hcc
      exact absurd hcc.1 (by decide)
    rw [assemble_apiVIP, assemble_ingressVIP, if_neg hc, if_neg hc]
    exact ⟨rfl, rfl⟩

/-- C5 witness: the single-control-plane scenario configuration builds with
both VIP fields empty although the platform supplies both VIPs. -/
theorem C5_witness :
    ((aciScenario.apiVIP ≠ "" ∨ aciScenario.ingressVIP ≠ "") →
      icScenario.controlPlaneReplicas > 1 ∧
        (getVIPs icScenario).1 ≠ "" ∧ (getVIPs icScenario).2 ≠ "") ∧
    (icScenario.controlPlaneReplicas = 1 →
      aciScenario.apiVIP = "" ∧ aciScenario.ingressVIP = "") :=
  C5_vip_invariant icScenario aciScenario rfl

/-- C6: the concrete scenario — one control-plane replica, compute pools of
3 and 3, cluster network 10.128.0.0/14 with host prefix 23, service network
172.30.0.0/16, network type unset, platform VIPs supplied — builds
successfully into a descriptor with six worker agents, one control-plane
agent, the system default network type, and empty VIP fields. -/
theorem C6_concrete_build :
    generate icScenario = Except.ok aciScenario ∧
    aciScenario.workerAgents = 6 ∧
    aciScenario.controlPlaneAgents = 1 ∧
    aciScenario.networkType = defaultNetworkType ∧
    aciScenario.apiVIP = "" ∧ aciScenario.ingressVIP = "" :=
  ⟨rfl, rfl, rfl, rfl, rfl, rfl⟩

/-- C7: the network-type resolver is idempotent — running it twice yields
the same descriptor as running it once, and on a descriptor whose network
type is already non-empty it is the identity. -/
theorem C7_setNetworkType_idempotent (aci : ACISpec) (nw : Option Networking) :
    setNetworkTypeACI (setNetworkTypeACI aci nw) nw = setNetworkTypeACI aci nw ∧
    (aci.networkType ≠ "" → setNetworkTypeACI aci nw = aci) := by
  constructor
  · simp only [setNetworkTypeACI]
    rw [setNetworkType_of_ne _ _ (setNetworkType_ne_empty aci.networkType nw)]
  · intro h
    simp only [setNetworkTypeACI]
    rw [setNetworkType_of_ne _ _ h]

/-- C7 witness: the resolver applied at a populated descriptor. -/
theorem C7_witness :
    setNetworkTypeACI (setNetworkTypeACI aciOVN none) none
        = setNetworkTypeACI aciOVN none ∧
    setNetworkTypeACI aciOVN none = aciOVN :=
  ⟨(C7_setNetworkType_idempotent aciOVN none).1,
   (C7_setNetworkType_idempotent aciOVN none).2 (by decide)⟩

/-- C8: for every accepted install configuration, the built descriptor's
SSH key is the configuration's key with exactly the characters pipe,
newline, and tab removed from both ends — the removed ends consist only of
those characters, the result neither starts nor ends with one of them — and
re-trimming the result is the identity. -/
theorem C8_ssh_trim (ic : InstallConfig) (aci : ACISpec)
    (h : generate ic = Except.ok aci) :
    (∃ p q, ic.sshKey.data = p ++ aci.sshPublicKey.data ++ q ∧
      (∀ c ∈ p, c ∈ trimCutset) ∧ (∀ c ∈ q, c ∈ trimCutset)) ∧
    (∀ c, aci.sshPublicKey.data.head? = some c → c ∉ trimCutset) ∧
    (∀ c, aci.sshPublicKey.data.getLast? = some c → c ∉ trimCutset) ∧
    goTrim aci.sshPublicKey trimCutset = aci.sshPublicKey := by
  obtain ⟨cn, sn, rfl⟩ := generate_ok_assemble ic aci h
  rw [assemble_sshPublicKey]
  have hdata : (goTrim ic.sshKey trimCutset).data = goTrimList trimCutset ic.sshKey.data := rfl
  rw [hdata]
  refine ⟨?_, ?_, ?_, ?_⟩
  · obtain ⟨p, q, h1, h2, h3⟩ := goTrimList_decomp trimCutset ic.sshKey.data
    exact ⟨p, q, h1, fun c hc => List.elem_iff.mp (h2 c hc),
      fun c hc => List.elem_iff.mp (h3 c hc)⟩
  · intro c hc hmem
    have h5 := goTrimList_head_false trimCutset ic.sshKey.data c hc
    exact Bool.false_ne_true (h5 ▸ List.elem_iff.mpr hmem)
  · intro c hc hmem
    have h5 := goTrimList_getLast_false trimCutset ic.sshKey.data c hc
    exact Bool.false_ne_true (h5 ▸ List.elem_iff.mpr hmem)
  · show (⟨goTrimList trimCutset (goTrimList trimCutset ic.sshKey.data)⟩ : String)
        = ⟨goTrimList trimCutset ic.sshKey.data⟩
    rw [goTrimList_idem]

/-- C8 witness: a key carrying pipes, newlines, and tabs at both ends. -/
theorem C8_witness :
    (∃ p q, icSSH.sshKey.data = p ++ aciSSH.sshPublicKey.data ++ q ∧
      (∀ c ∈ p, c ∈ trimCutset) ∧ (∀ c ∈ q, c ∈ trimCutset)) ∧
    (∀ c, aciSSH.sshPublicKey.data.head? = some c → c ∉ trimCutset) ∧
    (∀ c, aciSSH.sshPublicKey.data.getLast? = some c → c ∉ trimCutset) ∧
    goTrim aciSSH.sshPublicKey trimCutset = aciSSH.sshPublicKey :=
  C8_ssh_trim icSSH aciSSH rfl

/-- C9: a fetch failing with the not-found signal makes `Load` return
found=false with no error and adopt no descriptor, while any other fetch
failure makes it return found=false with a non-nil wrapped error. -/
theorem C9_load_fetch_outcomes (p : Except String ACISpec) (m : String) :
    load (Except.error FetchError.notExist) p = ⟨false, none, none⟩ ∧
    (load (Except.error (FetchError.other m)) p).found = false ∧
    (load (Except.error (FetchError.other m)) p).err.isSome = true :=
  ⟨rfl, rfl, rfl⟩

/-- C10: `Load` reports found=true exactly when the fetch, the strict
parse, and validation of the network-type-resolved descriptor all succeed,
and a descriptor that parses but fails validation yields found=false
together with a non-nil error. -/
theorem C10_load_validation_gate (f : Except FetchError Unit)
    (p : Except String ACISpec) :
    ((load f p).found = true ↔
      f = Except.ok () ∧ ∃ aci, p = Except.ok aci ∧
        validateIPAddressAndNetworkType (setNetworkTypeACI aci none) = []) ∧
    (∀ aci, f = Except.ok () → p = Except.ok aci →
      validateIPAddressAndNetworkType (setNetworkTypeACI aci none) ≠ [] →
      (load f p).found = false ∧ (load f p).err.isSome = true) := by
  cases f with
  | error fe =>
    refine ⟨?_, ?_⟩
    · constructor
      · intro h0
        have hfound : (load (Except.error fe) p).found = false := by
          cases fe <;> rfl
        rw [hfound] at h0
        cases h0
      · rintro ⟨hf, _⟩
        cases hf
    · intro aci hf
      cases hf
  | ok u =>
    cases u
    cases p with
    | error m =>
      refine ⟨?_, ?_⟩
      · constructor
        · intro h0
          cases h0
        · rintro ⟨_, aci, hp, _⟩
          cases hp
      · intro aci _ hp
        cases hp
    | ok parsed =>
      by_cases hv : validateIPAddressAndNetworkType (setNetworkTypeACI parsed none) = []
      · have hl : load (Except.ok ()) (Except.ok parsed)
            = ⟨true, none, some (setNetworkTypeACI parsed none)⟩ := by
          simp only [load]
          rw [if_pos hv]
        refine ⟨?_, ?_⟩
        · rw [hl]
          exact ⟨fun _ => ⟨rfl, parsed, rfl, hv⟩, fun _ => rfl⟩
        · intro aci _ hp hvne
          cases hp
          exact absurd hv hvne
      · have hl : load (Except.ok ()) (Except.ok parsed)
            = ⟨false, some ("invalid NetworkType configured"),
                some (setNetworkTypeACI parsed none)⟩ := by
          simp only [load]
          rw [if_neg hv]
        refine ⟨?_, ?_⟩
        · rw [hl]
          constructor
          · intro h0
            cases h0
          · rintro ⟨_, aci, hp, hva⟩
            cases hp
            exact absurd hva hv
        · intro aci _ hp hvne
          cases hp
          rw [hl]
          exact ⟨rfl, rfl⟩

/-- C10 witness: a record that parses as an OpenShiftSDN descriptor with an
IPv6 cluster network loads with found=false and a non-nil error. -/
theorem C10_witness :
    (load (Except.ok ()) (Except.ok aciV6SDN)).found = false ∧
    (load (Except.ok ()) (Except.ok aciV6SDN)).err.isSome = true :=
  (C10_load_validation_gate (Except.ok ()) (Except.ok aciV6SDN)).2
    aciV6SDN rfl rfl (by decide)
